import Mathlib

/-!
Verification development for the helm-chartsnap CLI sources.

The embedding covers:
* `pkg/unstructured/unknown.go`: the `UnknownError` type, its message
  rendering and its conversion to an unknown unstructured resource.
* the `main` package (`run`): resolution of the values flag into a list of
  test-case values inputs, and the per-test-case pipeline driven through an
  errgroup (update-mode snapshot removal, `charts.Snap`, outcome
  aggregation).

External collaborators (`charts.Snap`, `charts.SnapshotFile`, the file
system) are modelled as environment parameters or, where a claim depends on
behaviour the repository sources do not contain, as definitions modelled
from the specification (marked in their doc comments).
-/

namespace Chartsnap

/-- Model of the external k8s type `schema.GroupVersion` used by
`unknown.go`. -/
structure GroupVersionT where
  Group : String
  Version : String
deriving DecidableEq, Repr

/-- Model of the external library method `GroupVersion.String()`:
concatenates group and version with a slash, or returns just the version
when the group is empty. -/
def GroupVersionT.toStr (gv : GroupVersionT) : String :=
  if gv.Group = "" then gv.Version else gv.Group ++ "/" ++ gv.Version

/-- `GroupVersion` variable from `unknown.go`. -/
def GroupVersion : GroupVersionT :=
  { Group := "helm-chartsnap.jlandowner.dev", Version := "v1alpha1" }

/-- Model of `metaV1.Unstructured`: its `Object` field is a string-keyed
map; every value stored by this program is a string, so values are modelled
as strings. -/
structure Unstructured where
  Object : List (String × String)
deriving DecidableEq, Repr

/-- `UnknownError` struct from `unknown.go`. -/
structure UnknownError where
  Raw : String
deriving DecidableEq, Repr

/-- `NewUnknownError` from `unknown.go`. -/
def NewUnknownError (raw : String) : UnknownError := ⟨raw⟩

/-- `UnknownError.Error()` from `unknown.go`: the formatted warning
message embedding the raw fragment between document markers. -/
def UnknownError.Error (e : UnknownError) : String :=
  "WARN: failed to recognize a resource in stdout/stderr of helm template command output. snapshot it as Unknown: \n---\n"
    ++ e.Raw ++ "\n---"

/-- `UnknownError.Unstructured()` from `unknown.go`: builds the unknown
resource object with constant apiVersion and kind and the raw text. -/
def UnknownError.Unstructured (e : UnknownError) : Unstructured :=
  ⟨[("apiVersion", GroupVersion.toStr), ("kind", "Unknown"), ("raw", e.Raw)]⟩

/-- The `option` struct from `main.go` (CLI flag values). -/
structure Options where
  HelmPath : String
  ReleaseName : String
  Namespace : String
  Chart : String
  ValuesFile : String
  Debug : Bool
  UpdateSnapshot : Bool
deriving DecidableEq, Repr

/-- One entry returned by `os.ReadDir`: a name and whether it is a
directory. -/
structure DirEntry where
  name : String
  isDir : Bool
deriving DecidableEq, Repr

/-- Outcome of the `os.Stat` / `os.ReadDir` interaction on the values
flag path: the path does not exist, is a regular file, or is a directory
(in which case `ReadDir` either fails or yields its entries in listing
order). -/
inductive StatOutcome where
  | notExist
  | isFile
  | isDir (entries : List DirEntry)
  | isDirUnreadable (e : String)
deriving DecidableEq, Repr

/-- Model of `path.Join` for a directory and a base name as used in
`run` (`path.Join(o.ValuesFile, f.Name())`). -/
def pathJoin (dir fname : String) : String := dir ++ "/" ++ fname

/-- Model of the Go standard library `strings.HasSuffix`, computed on the
character lists of the two strings. -/
def hasSuffix (s suffix : String) : Bool := suffix.data.isSuffixOf s.data

/-- A test case terminal failure, mirroring the three error returns of the
per-case closure in `run`: snapshot-file removal failure, `charts.Snap`
error, and snapshot mismatch. -/
inductive CaseError where
  | removeFailed (e : String)
  | snapFailed (e : String) (chart values : String)
  | notMatch (chart values : String)
deriving DecidableEq, Repr

/-- An error returned by `run` itself: values input missing, values
directory unreadable, or some test case failed (the error surfaced by
`eg.Wait()`). -/
inductive RunError where
  | valuesNotFound (p : String)
  | readDirFailed (e : String)
  | caseFailed (c : CaseError)
deriving DecidableEq, Repr

/-- The values-resolution prefix of `run`: empty flag gives the single
empty values input; a missing path is fatal; a file is used directly; a
directory contributes its non-directory entries with suffix `.yaml`, in
listing order. -/
def resolveValues (valuesFlag : String) (stat : StatOutcome) :
    Except RunError (List String) :=
  if valuesFlag = "" then .ok [""]
  else
    match stat with
    | .notExist => .error (.valuesNotFound valuesFlag)
    | .isFile => .ok [valuesFlag]
    | .isDirUnreadable e => .error (.readDirFailed e)
    | .isDir entries =>
        .ok ((entries.filter
                (fun f => !f.isDir && hasSuffix f.name ".yaml")).map
              (fun f => pathJoin valuesFlag f.name))

/-- `charts.HelmTemplateCmdOptions` as constructed in `run`. -/
structure HelmTemplateCmdOptions where
  HelmPath : String
  ReleaseName : String
  Namespace : String
  Chart : String
  ValuesFile : String
  AdditionalArgs : List String
deriving DecidableEq, Repr

/-- The `ht` record built in `run` for one values input. -/
def mkHelmOptions (o : Options) (args : List String) (v : String) :
    HelmTemplateCmdOptions :=
  ⟨o.HelmPath, o.ReleaseName, o.Namespace, o.Chart, v, args⟩

/-- Modelled from the spec: `charts.SnapshotFile` is outside the
repository sources (external `charts` package); the spec states the
snapshot location is resolved deterministically from the chart identity
and the values-input identity, under a conventionally named
`__snapshot__` subdirectory (chart-relative when the values input is
empty). Any pure function of the pair satisfies the claims; this one
follows the spec wording. -/
def SnapshotFile (chart values : String) : String :=
  if values = "" then pathJoin chart "__snapshot__"
  else pathJoin values "__snapshot__"

/-- Outcome of `os.Remove` on the snapshot file: success, a not-exist
error (`os.IsNotExist(err)`), or another I/O error. -/
inductive RemoveOutcome where
  | success
  | notExist
  | ioError (e : String)
deriving DecidableEq, Repr

/-- Result of the external `charts.Snap` call: an error, or a matched
verdict with a failure message. -/
inductive SnapOutcome where
  | err (e : String)
  | ok (matched : Bool) (failureMessage : String)
deriving DecidableEq, Repr

/-- Modelled from the spec: in update-snapshot mode `charts.Snap`
(outside the repository sources) deletes nothing further, writes the
fresh normalized text via the store and treats the run as
always-matching, so it returns `matched = true` with some message. -/
def specSnapUpdateOutcome (m : String) : SnapOutcome := .ok true m

/-- Per-test-case environment: what the file system and the external
`charts.Snap` collaborator do for this test case. -/
structure CaseEnv where
  removeResult : RemoveOutcome
  snapResult : SnapOutcome
deriving DecidableEq, Repr

/-- Observable side-effecting steps of one test case, in order: removing
the snapshot file and invoking `charts.Snap`. -/
inductive Event where
  | removeSnapshot (loc : String)
  | snap (ht : HelmTemplateCmdOptions)
deriving DecidableEq, Repr

/-- What one test case reports: the render options it used, the ordered
trace of its external steps, and its terminal outcome (`none` = pass). -/
structure CaseReport where
  ht : HelmTemplateCmdOptions
  trace : List Event
  outcome : Option CaseError
deriving DecidableEq, Repr

/-- The tail of the per-case closure after the update-mode removal:
`charts.Snap` errors are fatal for the case, an unmatched verdict is
fatal, a matched verdict passes. -/
def afterSnap (ht : HelmTemplateCmdOptions) : SnapOutcome → Option CaseError
  | .err e => some (.snapFailed e ht.Chart ht.ValuesFile)
  | .ok matched _ =>
      if matched then none else some (.notMatch ht.Chart ht.ValuesFile)

/-- The closure passed to `eg.Go` in `run` for one test case: in update
mode first remove the snapshot file, ignoring a not-exist error and
failing the case on any other removal error; then call `charts.Snap` and
turn its result into the terminal outcome. -/
def runCase (update : Bool) (ht : HelmTemplateCmdOptions) (env : CaseEnv) :
    CaseReport :=
  let loc := SnapshotFile ht.Chart ht.ValuesFile
  if update then
    match env.removeResult with
    | .ioError e => ⟨ht, [.removeSnapshot loc], some (.removeFailed e)⟩
    | _ => ⟨ht, [.removeSnapshot loc, .snap ht], afterSnap ht env.snapResult⟩
  else ⟨ht, [.snap ht], afterSnap ht env.snapResult⟩

/-- Environment for a whole `run` invocation: flag values, extra args,
the file-system answer for the values flag path, and the per-values-input
case environments. -/
structure RunEnv where
  o : Options
  args : List String
  stat : StatOutcome
  caseEnvs : String → CaseEnv

/-- Result of `run`: the error it returns (`none` = nil) and the report
of every test case that was started. -/
structure RunResult where
  result : Option RunError
  reports : List CaseReport
deriving DecidableEq, Repr

/-- `eg.Wait()` surfaces an error exactly when some goroutine returned
one; determinised here to the first failing case in enumeration order. -/
def firstError (reports : List CaseReport) : Option CaseError :=
  reports.findSome? (·.outcome)

/-- The `run` function of `main.go`: resolve the values inputs (aborting
on a missing path or unreadable directory), start one case per values
input, wait for all of them, and return nil only when every case passed. -/
def run (env : RunEnv) : RunResult :=
  match resolveValues env.o.ValuesFile env.stat with
  | .error e => ⟨some e, []⟩
  | .ok vs =>
      let reports := vs.map (fun v =>
        runCase env.o.UpdateSnapshot (mkHelmOptions env.o env.args v)
          (env.caseEnvs v))
      ⟨(firstError reports).map RunError.caseFailed, reports⟩

/-- The process exit contract of `main`: `rootCmd.Execute()` propagates
the error from `run`; a non-nil error causes `os.Exit(1)`, otherwise the
process exits zero. -/
def exitCode (r : RunResult) : Nat := if r.result.isNone then 0 else 1

/- Helper lemmas. -/

/-- String concatenation is associative. -/
theorem strAppendAssoc (a b c : String) : a ++ b ++ c = a ++ (b ++ c) := by
  cases a with
  | mk da =>
    cases b with
    | mk db =>
      cases c with
      | mk dc =>
        show String.mk (da ++ db ++ dc) = String.mk (da ++ (db ++ dc))
        rw [List.append_assoc]

/-- The report of a case keeps the render options it was given. -/
theorem runCase_ht (u : Bool) (ht : HelmTemplateCmdOptions) (env : CaseEnv) :
    (runCase u ht env).ht = ht := by
  cases u with
  | false => rfl
  | true => cases h : env.removeResult <;> simp [runCase, h]

/-- `findSome?` over report outcomes is `none` exactly when every report
passed. -/
theorem firstErrorNoneIff (l : List CaseReport) :
    firstError l = none ↔ ∀ r ∈ l, r.outcome = none := by
  induction l with
  | nil => simp [firstError, List.findSome?]
  | cons hd tl ih =>
    simp only [firstError, List.findSome?] at *
    cases h : hd.outcome with
    | some e => simp [h]
    | none => simp [h, ih]

/-- The error surfaced by the wait-and-aggregate step is `none` exactly
when every report passed, and the process exit code built from it is zero
under the same condition. -/
theorem runAggregate (l : List CaseReport) :
    ((firstError l).map RunError.caseFailed = none ↔
      ∀ r ∈ l, r.outcome = none) ∧
    (exitCode ⟨(firstError l).map RunError.caseFailed, l⟩ = 0 ↔
      ∀ r ∈ l, r.outcome = none) := by
  have h1 : (firstError l).map RunError.caseFailed = none ↔
      ∀ r ∈ l, r.outcome = none := by
    rw [Option.map_eq_none']
    exact firstErrorNoneIff l
  refine ⟨h1, ?_⟩
  simp only [exitCode, Option.isNone_iff_eq_none]
  by_cases hfe : (firstError l).map RunError.caseFailed = none
  · rw [if_pos hfe]
    exact iff_of_true rfl (h1.mp hfe)
  · rw [if_neg hfe]
    exact iff_of_false (by decide) (fun hall => hfe (h1.mpr hall))

/- Claim theorems. -/

/-- Claim C1: every fragment that fails structured parsing yields an
unknown resource (via `UnknownError.Unstructured`) whose `raw` field holds
the fragment's exact original text unmodified, so no fragment's bytes are
dropped from the snapshot. -/
theorem unknown_preserves_raw_text (raw : String) :
    ((NewUnknownError raw).Unstructured.Object.lookup "raw" = some raw) ∧
    ("raw", raw) ∈ (NewUnknownError raw).Unstructured.Object := by
  constructor
  · rfl
  · simp [NewUnknownError, UnknownError.Unstructured]

/-- Claim C9: the unknown resource built from any fragment carries the
constant identity apiVersion `helm-chartsnap.jlandowner.dev/v1alpha1` and
kind `Unknown`, with `raw` as its only other field, regardless of the
fragment's content. -/
theorem unknown_constant_identity (raw : String) :
    (NewUnknownError raw).Unstructured.Object =
      [("apiVersion", "helm-chartsnap.jlandowner.dev/v1alpha1"),
       ("kind", "Unknown"), ("raw", raw)] := by
  rfl

/-- Claim C8: an unrecognized fragment surfaces as a warning-level signal,
not a fatal error value with structure of its own: the `UnknownError`
message starts with the warning marker `WARN: `, embeds the fragment's raw
text, and the fragment is downgraded to an unknown resource of kind
`Unknown`. -/
theorem unknown_is_warning_signal (raw : String) :
    (∃ rest, (NewUnknownError raw).Error = "WARN: " ++ rest) ∧
    (∃ pre suf, (NewUnknownError raw).Error = pre ++ raw ++ suf) ∧
    (NewUnknownError raw).Unstructured.Object.lookup "kind" = some "Unknown" := by
  refine ⟨?_, ?_, rfl⟩
  · refine ⟨"failed to recognize a resource in stdout/stderr of helm template command output. snapshot it as Unknown: \n---\n" ++ raw ++ "\n---", ?_⟩
    show "WARN: failed to recognize a resource in stdout/stderr of helm template command output. snapshot it as Unknown: \n---\n" ++ raw ++ "\n---" =
      "WARN: " ++ ("failed to recognize a resource in stdout/stderr of helm template command output. snapshot it as Unknown: \n---\n" ++ raw ++ "\n---")
    rw [strAppendAssoc,
      show ("WARN: failed to recognize a resource in stdout/stderr of helm template command output. snapshot it as Unknown: \n---\n" : String) = "WARN: " ++ "failed to recognize a resource in stdout/stderr of helm template command output. snapshot it as Unknown: \n---\n" from rfl,
      strAppendAssoc, strAppendAssoc]
  · exact ⟨"WARN: failed to recognize a resource in stdout/stderr of helm template command output. snapshot it as Unknown: \n---\n", "\n---", rfl⟩

/-- Claim C2: `run` returns nil (and the process exit code is zero)
exactly when every started test case passed: once the values inputs are
resolved, any failing case makes `run` return an error and all cases
passing makes it return nil. -/
theorem run_nil_iff_all_cases_pass (env : RunEnv) (vs : List String)
    (h : resolveValues env.o.ValuesFile env.stat = .ok vs) :
    ((run env).result = none ↔ ∀ r ∈ (run env).reports, r.outcome = none) ∧
    (exitCode (run env) = 0 ↔ ∀ r ∈ (run env).reports, r.outcome = none) := by
  have hrun : run env =
      ⟨(firstError (vs.map (fun v =>
          runCase env.o.UpdateSnapshot (mkHelmOptions env.o env.args v)
            (env.caseEnvs v)))).map RunError.caseFailed,
        vs.map (fun v =>
          runCase env.o.UpdateSnapshot (mkHelmOptions env.o env.args v)
            (env.caseEnvs v))⟩ := by
    simp [run, h]
  rw [hrun]
  exact runAggregate _

/-- Sample environment used to witness the orchestrator theorems. -/
def sampleOptions : Options :=
  { HelmPath := "helm", ReleaseName := "testrelease", Namespace := "testns",
    Chart := "mychart", ValuesFile := "", Debug := false,
    UpdateSnapshot := false }

/-- Sample per-case environment where every case passes. -/
def passingCaseEnv : CaseEnv :=
  { removeResult := .success, snapResult := .ok true "" }

/-- Sample run environment with the empty values flag and passing cases. -/
def sampleRunEnv : RunEnv :=
  { o := sampleOptions, args := [], stat := .notExist,
    caseEnvs := fun _ => passingCaseEnv }

/-- Witness for C2 at a concrete environment. -/
theorem run_nil_iff_all_cases_pass_witness :
    ((run sampleRunEnv).result = none ↔
      ∀ r ∈ (run sampleRunEnv).reports, r.outcome = none) ∧
    (exitCode (run sampleRunEnv) = 0 ↔
      ∀ r ∈ (run sampleRunEnv).reports, r.outcome = none) :=
  run_nil_iff_all_cases_pass sampleRunEnv [""] rfl

/-- Claim C3: one test case failing never aborts a sibling: every
enumerated test case produces a report, and the report at each position is
fully determined by that case's own environment — changing every other
case's behaviour (here: the whole environment function, agreeing only at
this case's values input) leaves its terminal outcome unchanged. -/
theorem run_cases_complete_and_independent
    (o : Options) (args : List String) (stat : StatOutcome)
    (ce ce' : String → CaseEnv) (vs : List String)
    (h : resolveValues o.ValuesFile stat = .ok vs) :
    (run ⟨o, args, stat, ce⟩).reports.length = vs.length ∧
    ∀ (i : Nat) (v : String), vs[i]? = some v → ce v = ce' v →
      (run ⟨o, args, stat, ce⟩).reports[i]? =
        some (runCase o.UpdateSnapshot (mkHelmOptions o args v) (ce v)) ∧
      (run ⟨o, args, stat, ce'⟩).reports[i]? =
        some (runCase o.UpdateSnapshot (mkHelmOptions o args v) (ce v)) := by
  have e1 : (run ⟨o, args, stat, ce⟩).reports = vs.map (fun v =>
      runCase o.UpdateSnapshot (mkHelmOptions o args v) (ce v)) := by
    simp [run, h]
  have e2 : (run ⟨o, args, stat, ce'⟩).reports = vs.map (fun v =>
      runCase o.UpdateSnapshot (mkHelmOptions o args v) (ce' v)) := by
    simp [run, h]
  refine ⟨by rw [e1, List.length_map], ?_⟩
  intro i v hv hce
  rw [e1, e2, List.getElem?_map, List.getElem?_map, hv]
  exact ⟨rfl, by simp only [Option.map_some']; rw [← hce]⟩

/-- A second sample run environment: same options, but every case other
than the empty values input fails. -/
def sampleRunEnvB : RunEnv :=
  { o := sampleOptions, args := [], stat := .notExist,
    caseEnvs := fun v =>
      if v = "x" then ⟨.success, .err "boom"⟩ else passingCaseEnv }

/-- Witness for C3 at a concrete environment. -/
theorem run_cases_complete_and_independent_witness :
    (run sampleRunEnv).reports.length = 1 ∧
    (run sampleRunEnv).reports[0]? =
      some (runCase false (mkHelmOptions sampleOptions [] "")
        passingCaseEnv) ∧
    (run sampleRunEnvB).reports[0]? =
      some (runCase false (mkHelmOptions sampleOptions [] "")
        passingCaseEnv) := by
  have h := run_cases_complete_and_independent sampleOptions [] .notExist
    (fun _ => passingCaseEnv) sampleRunEnvB.caseEnvs [""] rfl
  have h0 := h.2 0 "" rfl (by decide)
  exact ⟨h.1, h0.1, h0.2⟩

/-- Claim C4: in update-snapshot mode every test case removes the stored
snapshot at the location resolved from the chart and values-input
identities before `charts.Snap` runs (the trace always starts with the
removal, and whenever the removal is not a hard failure the trace is
exactly removal followed by the snap step); with the spec-modelled
update-mode `charts.Snap` result the case then reports matching. -/
theorem update_mode_deletes_before_snap
    (ht : HelmTemplateCmdOptions) (env : CaseEnv) (m : String) :
    (runCase true ht env).trace.head? =
      some (Event.removeSnapshot (SnapshotFile ht.Chart ht.ValuesFile)) ∧
    runCase true ht ⟨.success, specSnapUpdateOutcome m⟩ =
      ⟨ht, [.removeSnapshot (SnapshotFile ht.Chart ht.ValuesFile),
            .snap ht], none⟩ ∧
    runCase true ht ⟨.notExist, specSnapUpdateOutcome m⟩ =
      ⟨ht, [.removeSnapshot (SnapshotFile ht.Chart ht.ValuesFile),
            .snap ht], none⟩ := by
  refine ⟨?_, rfl, rfl⟩
  cases h : env.removeResult <;> simp [runCase, h]

/-- Claim C5: in update mode, removing an absent snapshot file is a
no-op, not an error — the not-exist outcome behaves exactly like a
successful removal and the case proceeds to `charts.Snap` normally —
while any other removal failure is fatal for that test case and
`charts.Snap` never runs. -/
theorem update_remove_absent_is_noop
    (ht : HelmTemplateCmdOptions) (sres : SnapOutcome) (e : String) :
    runCase true ht ⟨.notExist, sres⟩ = runCase true ht ⟨.success, sres⟩ ∧
    (runCase true ht ⟨.notExist, sres⟩).outcome = afterSnap ht sres ∧
    (runCase true ht ⟨.ioError e, sres⟩).outcome =
      some (.removeFailed e) ∧
    (runCase true ht ⟨.ioError e, sres⟩).trace =
      [.removeSnapshot (SnapshotFile ht.Chart ht.ValuesFile)] :=
  ⟨rfl, rfl, rfl, rfl⟩

/-- Claim C6: with an empty values flag the orchestrator enumerates
exactly one test case whose values input is the empty string, and that
empty input is passed through to the render options. -/
theorem empty_values_flag_single_case
    (hp rn ns ch : String) (dbg upd : Bool) (args : List String)
    (stat : StatOutcome) (ce : String → CaseEnv) :
    resolveValues "" stat = Except.ok [""] ∧
    (run ⟨⟨hp, rn, ns, ch, "", dbg, upd⟩, args, stat, ce⟩).reports =
      [runCase upd (mkHelmOptions ⟨hp, rn, ns, ch, "", dbg, upd⟩ args "")
        (ce "")] ∧
    (mkHelmOptions ⟨hp, rn, ns, ch, "", dbg, upd⟩ args "").ValuesFile = "" :=
  ⟨rfl, rfl, rfl⟩

/-- Claim C7: a missing values input location is fatal: `run` returns the
values-not-found error before any test case is started (no reports), and
whenever enumeration does succeed every enumerated test case runs and
reports — so a values-not-found failure never suppresses the report of
any enumerated test case. -/
theorem missing_values_input_aborts_run
    (o : Options) (args : List String) (ce : String → CaseEnv) :
    (o.ValuesFile ≠ "" →
      run ⟨o, args, .notExist, ce⟩ =
        ⟨some (.valuesNotFound o.ValuesFile), []⟩) ∧
    (∀ (stat : StatOutcome) (vs : List String),
      resolveValues o.ValuesFile stat = .ok vs →
      (run ⟨o, args, stat, ce⟩).reports.length = vs.length) := by
  constructor
  · intro hne
    simp [run, resolveValues, hne]
  · intro stat vs h
    simp [run, h]

/-- Options naming a values path that does not exist. -/
def missingOptions : Options :=
  { sampleOptions with ValuesFile := "missing.yaml" }

/-- Witness for C7 at a concrete environment. -/
theorem missing_values_input_aborts_run_witness :
    run ⟨missingOptions, [], .notExist, fun _ => passingCaseEnv⟩ =
      ⟨some (.valuesNotFound "missing.yaml"), []⟩ ∧
    (run ⟨missingOptions, [], .isFile,
        fun _ => passingCaseEnv⟩).reports.length = 1 := by
  have h := missing_values_input_aborts_run missingOptions []
    (fun _ => passingCaseEnv)
  exact ⟨h.1 (by decide), h.2 .isFile ["missing.yaml"] rfl⟩

/-- Claim C10: when the values flag names a directory, exactly its
immediate non-directory entries with names ending in `.yaml` become test
cases, in listing order; a directory with no such entries yields zero
test cases and the run reports overall success (nil error, exit zero). -/
theorem values_directory_enumeration
    (o : Options) (args : List String) (ce : String → CaseEnv)
    (entries : List DirEntry) (hne : o.ValuesFile ≠ "") :
    ((run ⟨o, args, .isDir entries, ce⟩).reports.map
        (fun r => r.ht.ValuesFile) =
      (entries.filter (fun f => !f.isDir && hasSuffix f.name ".yaml")).map
        (fun f => pathJoin o.ValuesFile f.name)) ∧
    ((entries.filter (fun f => !f.isDir && hasSuffix f.name ".yaml")) = [] →
      (run ⟨o, args, .isDir entries, ce⟩).reports = [] ∧
      (run ⟨o, args, .isDir entries, ce⟩).result = none ∧
      exitCode (run ⟨o, args, .isDir entries, ce⟩) = 0) := by
  have hres : resolveValues o.ValuesFile (.isDir entries) =
      .ok ((entries.filter
            (fun f => !f.isDir && hasSuffix f.name ".yaml")).map
          (fun f => pathJoin o.ValuesFile f.name)) := by
    simp [resolveValues, hne]
  have hrep : (run ⟨o, args, .isDir entries, ce⟩).reports =
      ((entries.filter (fun f => !f.isDir && hasSuffix f.name ".yaml")).map
          (fun f => pathJoin o.ValuesFile f.name)).map
        (fun v => runCase o.UpdateSnapshot (mkHelmOptions o args v)
          (ce v)) := by
    simp [run, hres]
  constructor
  · rw [hrep, List.map_map]
    refine (List.map_congr_left ?_).trans (List.map_id _)
    intro v _
    simp [Function.comp, runCase_ht, mkHelmOptions]
  · intro hempty
    have hres0 : resolveValues o.ValuesFile (.isDir entries) = .ok [] := by
      rw [hres, hempty]
      rfl
    refine ⟨?_, ?_, ?_⟩ <;>
      simp [run, hres0, firstError, exitCode, List.findSome?]

/-- Directory listing used to witness C10. -/
def dirEntriesSample : List DirEntry :=
  [⟨"a.yaml", false⟩, ⟨"sub.yaml", true⟩, ⟨"b.txt", false⟩]

/-- Options whose values flag names a directory. -/
def dirOptions : Options := { sampleOptions with ValuesFile := "vals" }

/-- Witness for C10 at a concrete environment. -/
theorem values_directory_enumeration_witness :
    ((run ⟨dirOptions, [], .isDir dirEntriesSample,
        fun _ => passingCaseEnv⟩).reports.map
      (fun r => r.ht.ValuesFile) = ["vals/a.yaml"]) ∧
    ((run ⟨dirOptions, [], .isDir [⟨"sub", true⟩],
        fun _ => passingCaseEnv⟩).result = none) := by
  constructor
  · have h := (values_directory_enumeration dirOptions []
      (fun _ => passingCaseEnv) dirEntriesSample (by decide)).1
    rw [h]
    decide
  · have h := (values_directory_enumeration dirOptions []
      (fun _ => passingCaseEnv) [⟨"sub", true⟩] (by decide)).2 rfl
    exact h.2.1

end Chartsnap
